import Mathlib

/-!
# PantryMind orchestration core: shallow embedding and verification

This file embeds the orchestration core of the PantryMind assistant
(`app/agents/governor.py`, `app/agents/state_machine.py`,
`app/agents/cost_optimizer.py`) in Lean and proves (or refutes) the frozen
specification claims about it.

Modelling conventions:
* Python `float` confidences/thresholds are modelled as exact rationals `ℚ`.
* Python `dict.get(key, default)` on typed records is modelled with `Option`
  fields and `Option.getD`.
* Python exceptions are modelled with `Except String`; `raise` is
  `Except.error`, and a `try/except` block is a `match` on the `Except`.
* Capability agents are opaque collaborators: the driver is parameterised by
  an arbitrary function `Behaviors : AgentRole → ToolInput → Except String
  AgentResult` (`Except.error` models a raised fault).
* The `md5` hashing of cache keys is modelled by using the (lowercased)
  message itself as the key: only key equality matters to the logic.
* String lowercasing is ASCII lowercasing (`Char.toLower`), matching the user
  messages this system handles.
-/

namespace PantryMind

/-- `AgentRole` enum from `governor.py`. -/
inductive AgentRole where
  | intent
  | planner
  | inventory
  | ocr
  | recipe
  | validator
  | responder
deriving DecidableEq, Repr

/-- `ExecutionState` enum from `governor.py`. -/
inductive ExecutionState where
  | intent
  | plan
  | execute
  | validate
  | respond
  | error
deriving DecidableEq, Repr

/-- The `.value` string of an `AgentRole` member. -/
def roleValue : AgentRole → String
  | .intent => "intent"
  | .planner => "planner"
  | .inventory => "inventory"
  | .ocr => "ocr"
  | .recipe => "recipe"
  | .validator => "validator"
  | .responder => "responder"

/-- One entry of `plan_steps`: the step dict produced by the planner.  Only
the keys read by the orchestration core are modelled. -/
structure PlanStep where
  tool_type : Option String := none
  operation : Option String := none
  quantity : Option Int := none
  canonical_item_id : Option String := none
  image_data : Option String := none
deriving DecidableEq, Repr

/-- The `data` dict of an `AgentResult` (`base.py`): only the keys read by
the driver (`_update_context_from_result`, response extraction) are
modelled; absent keys are `none` / `[]`. -/
structure AgentData where
  intent : Option String := none
  confidence : Option ℚ := none
  plan_steps : List PlanStep := []
  is_valid : Option Bool := none
  errors : List String := []
  response : Option String := none
deriving DecidableEq, Repr

/-- `AgentResult` pydantic model from `base.py` (the per-agent `metadata`
map is never read by the orchestration core and is omitted). -/
structure AgentResult where
  success : Bool
  data : AgentData := {}
  confidence : ℚ := 0
  error_message : Option String := none
  side_effects : List String := []
deriving DecidableEq, Repr

/-- The result-wrapper dict built by `AgentStateMachine._execute_agent`
(keys `agent`, `success`, `data`, `confidence`, `error_message`,
`side_effects`; the pass-through `metadata` is omitted as unread). -/
structure ExecResult where
  agent : String
  success : Bool
  data : AgentData
  confidence : ℚ
  error_message : Option String
  side_effects : List String
deriving DecidableEq, Repr

/-- `ExecutionContext` dataclass from `state_machine.py`.  Entries of
`errors` are `Option String` because Python appends
`result.get("error_message", ...)` whose stored value may be `None` (the
key is always present in the wrapper dict, so the default never fires).
`metadata` is the string-keyed dict of per-role results. -/
structure ExecutionContext where
  user_message : String
  kitchen_id : Int
  user_email : String
  current_state : ExecutionState := .intent
  intent : Option String := none
  intent_confidence : ℚ := 0
  plan_steps : List PlanStep := []
  current_step : Nat := 0
  execution_results : List ExecResult := []
  validation_results : List ExecResult := []
  errors : List (Option String) := []
  metadata : List (String × ExecResult) := []
deriving DecidableEq, Repr

/-- The context dict built by `AgentStateMachine._build_governor_context`. -/
structure GovCtx where
  intent_confidence : ℚ := 0
  plan_steps : List PlanStep := []
  current_step : Nat := 0
  execution_result : Option ExecResult := none
  validation_result : Option ExecResult := none
  current_agent : Option AgentRole := none
  operation_type : Option String := none
deriving DecidableEq, Repr

/-- The `self.rules` table of `Governor.__init__`. -/
structure GovernorRules where
  ocr_confidence_threshold : ℚ := mkRat 4 5
  inventory_write_requires_validation : Bool := true
  recipe_agent_readonly : Bool := true
  max_plan_steps : Nat := 5
  require_intent_confidence : ℚ := mkRat 7 10
deriving DecidableEq, Repr

/-- The rule table with the literal values from `Governor.__init__`. -/
def defaultRules : GovernorRules := {}

/-- `AgentDecision` pydantic model from `governor.py`. -/
structure AgentDecision where
  allowed_agent : AgentRole
  state : ExecutionState
  confidence : ℚ
  reasoning : String
  preconditions_met : Bool
  reject_reason : Option String := none
deriving DecidableEq, Repr

/-- Python string interpolation of an optional string (`None` prints as
`"None"`). -/
def pyStr : Option String → String
  | none => "None"
  | some s => s

/-- `Governor._route_from_intent`. -/
def routeFromIntent (rules : GovernorRules) (context : GovCtx) : AgentDecision :=
  let intent_confidence := context.intent_confidence
  if intent_confidence < rules.require_intent_confidence then
    { allowed_agent := .responder
      state := .respond
      confidence := 1
      reasoning := "Intent unclear, need clarification"
      preconditions_met := false
      reject_reason := some "Low intent confidence" }
  else
    { allowed_agent := .planner
      state := .plan
      confidence := mkRat 9 10
      reasoning := "Intent clear, proceed to planning"
      preconditions_met := true }

/-- `agent_map.get(tool_type, AgentRole.RESPONDER)` in
`Governor._route_from_plan`. -/
def agentMapGet : Option String → AgentRole
  | some "inventory" => .inventory
  | some "ocr" => .ocr
  | some "recipe" => .recipe
  | _ => .responder

/-- `Governor._route_from_plan`. -/
def routeFromPlan (rules : GovernorRules) (context : GovCtx) : AgentDecision :=
  let plan_steps := context.plan_steps
  if plan_steps.length > rules.max_plan_steps then
    { allowed_agent := .responder
      state := .respond
      confidence := 1
      reasoning := "Plan too complex"
      preconditions_met := false
      reject_reason := some "Exceeds max plan steps" }
  else
    -- first_step = plan_steps[0] if plan_steps else {}
    let first_step : PlanStep := plan_steps.headD {}
    let tool_type := first_step.tool_type
    if tool_type = some "greeting" ∨ tool_type = some "help" then
      { allowed_agent := .responder
        state := .respond
        confidence := 1
        reasoning := "Direct response for " ++ pyStr tool_type
        preconditions_met := true }
    else
      { allowed_agent := agentMapGet tool_type
        state := .execute
        confidence := mkRat 17 20
        reasoning := "Execute " ++ pyStr tool_type ++ " step"
        preconditions_met := true }

/-- `Governor._route_from_execute`.  Python uses two separate `if` blocks
(OCR check nested under `current_agent == OCR`); the flat conditions below
are equivalent because the two `current_agent` tests are mutually
exclusive. -/
def routeFromExecute (rules : GovernorRules) (context : GovCtx) : AgentDecision :=
  -- confidence = context.get("execution_result", {}).get("confidence", 0.0)
  let confidence : ℚ := match context.execution_result with
    | some r => r.confidence
    | none => 0
  if context.current_agent = some .ocr ∧ confidence < rules.ocr_confidence_threshold then
    { allowed_agent := .validator
      state := .validate
      confidence := 1
      reasoning := "OCR confidence too low, needs validation"
      preconditions_met := true }
  else if context.current_agent = some .inventory ∧
      context.operation_type = some "write" ∧
      rules.inventory_write_requires_validation then
    { allowed_agent := .validator
      state := .validate
      confidence := 1
      reasoning := "Inventory write requires validation"
      preconditions_met := true }
  else
    { allowed_agent := .responder
      state := .respond
      confidence := mkRat 9 10
      reasoning := "Execution successful, ready to respond"
      preconditions_met := true }

/-- `Governor._route_from_validate`.  Note: the value stored in
`validation_results` (and therefore fed in as `validation_result`) is the
result-wrapper dict `{agent, success, data, ...}` built by
`_execute_agent`; it never carries an `"is_valid"` or `"error_reason"` key
(those live under `data`), so `validation_result.get("is_valid", False)`
always yields the default `False` and
`validation_result.get("error_reason", "Validation failed")` always yields
its default. -/
def routeFromValidate (rules : GovernorRules) (context : GovCtx) : AgentDecision :=
  let is_valid : Bool := false
  if ¬ is_valid then
    { allowed_agent := .responder
      state := .error
      confidence := 1
      reasoning := "Validation failed"
      preconditions_met := false
      reject_reason := some "Validation failed" }
  else
    { allowed_agent := .responder
      state := .respond
      confidence := 1
      reasoning := "Validation passed, ready to respond"
      preconditions_met := true }

/-- `Governor.decide_next_agent`. -/
def decideNextAgent (rules : GovernorRules) (current_state : ExecutionState)
    (context : GovCtx) : AgentDecision :=
  match current_state with
  | .intent => routeFromIntent rules context
  | .plan => routeFromPlan rules context
  | .execute => routeFromExecute rules context
  | .validate => routeFromValidate rules context
  | _ =>
    { allowed_agent := .responder
      state := .respond
      confidence := 1
      reasoning := "Default to response"
      preconditions_met := true }

/-- State-passing form of `Governor.decide_next_agent`: the method reads
`self.rules` and assigns no attribute of `self`, so the translated method
returns the governor state alongside the decision. -/
def decideNextAgentSt (rules : GovernorRules) (current_state : ExecutionState)
    (context : GovCtx) : AgentDecision × GovernorRules :=
  (decideNextAgent rules current_state context, rules)

/-- Python truthiness of an optional string (`None` and `""` are falsy). -/
def truthyStr : Option String → Bool
  | none => false
  | some s => s ≠ ""

/-- `x or default` for an optional string, as used in
`decision.reject_reason or "Action rejected"`. -/
def pyOr (x : Option String) (dflt : String) : String :=
  match x with
  | some s => if s ≠ "" then s else dflt
  | none => dflt

/-- The agent-specific `input_data` dict assembled by
`AgentStateMachine._execute_agent`.  The nested `"context"` payload of the
responder input is flattened into `ctx_*` fields. -/
structure ToolInput where
  message : Option String := none
  intent : Option String := none
  kitchen_id : Option Int := none
  user_email : Option String := none
  operation : Option String := none
  tool_type : Option String := none
  quantity : Option Int := none
  canonical_item_id : Option String := none
  image_data : Option String := none
  validation_type : Option String := none
  vdata : Option ExecResult := none
  execution_state : Option String := none
  ctx_intent : Option String := none
  ctx_execution_results : List ExecResult := []
  ctx_error_reason : Option (Option String) := none
  ctx_plan_steps : List PlanStep := []
deriving DecidableEq, Repr

/-- `Governor._validate_inventory_preconditions`. -/
def validateInventoryPreconditions (tool_input : ToolInput) : Bool :=
  if tool_input.operation = some "update" then
    let quantity := tool_input.quantity.getD 0
    if quantity < 0 then false
    else if ¬ truthyStr tool_input.canonical_item_id then false
    else true
  else true

/-- `Governor._validate_ocr_preconditions`. -/
def validateOcrPreconditions (tool_input : ToolInput) : Bool :=
  truthyStr tool_input.image_data

/-- `Governor._validate_recipe_preconditions`. -/
def validateRecipePreconditions (tool_input : ToolInput) : Bool :=
  if tool_input.operation = some "create" ∨ tool_input.operation = some "update" ∨
      tool_input.operation = some "delete" then false
  else true

/-- `Governor.validate_tool_preconditions`. -/
def validateToolPreconditions (agent : AgentRole) (tool_input : ToolInput) : Bool :=
  match agent with
  | .inventory => validateInventoryPreconditions tool_input
  | .ocr => validateOcrPreconditions tool_input
  | .recipe => validateRecipePreconditions tool_input
  | _ => true

/-- `AgentStateMachine._build_governor_context`.  The dataclass
`ExecutionContext` declares no `current_agent` or `operation_type` field and
no statement in the module ever assigns either attribute, so
`getattr(context, 'current_agent', None)` and
`getattr(context, 'operation_type', None)` always return the default
`None`. -/
def buildGovernorContext (context : ExecutionContext) : GovCtx :=
  { intent_confidence := context.intent_confidence
    plan_steps := context.plan_steps
    current_step := context.current_step
    execution_result := context.execution_results.getLast?
    validation_result := context.validation_results.getLast?
    current_agent := none
    operation_type := none }

/-- The `input_data` construction in `AgentStateMachine._execute_agent`. -/
def buildAgentInput (agent_role : AgentRole) (context : ExecutionContext) : ToolInput :=
  match agent_role with
  | .intent => { message := some context.user_message }
  | .planner =>
    { intent := context.intent
      message := some context.user_message
      kitchen_id := some context.kitchen_id }
  | .inventory | .ocr | .recipe =>
    if h : context.current_step < context.plan_steps.length then
      let step := context.plan_steps.get ⟨context.current_step, h⟩
      -- {"operation": step.get("operation"), kitchen_id, user_email, **step}
      { operation := step.operation
        kitchen_id := some context.kitchen_id
        user_email := some context.user_email
        tool_type := step.tool_type
        quantity := step.quantity
        canonical_item_id := step.canonical_item_id
        image_data := step.image_data }
    else
      { kitchen_id := some context.kitchen_id }
  | .validator =>
    -- last_result is the wrapper dict {agent, success, data, ...}; it never
    -- has an "extracted_items" key (extracted items live under data), so
    -- the `"extracted_items" in last_result` test is always False and the
    -- validation_type is always "inventory_write".
    let last_result := context.execution_results.getLast?
    { validation_type := some "inventory_write"
      vdata := last_result }
  | .responder =>
    { execution_state := some (if context.errors ≠ [] then "error" else "success")
      ctx_intent := context.intent
      ctx_execution_results := context.execution_results
      ctx_error_reason := some (match context.errors.getLast? with
        | some e => e
        | none => none)
      ctx_plan_steps := context.plan_steps }

/-- Upsert into a string-keyed association list, modelling Python dict
assignment `d[k] = v` (replace in place if the key is present, else append
in insertion order). -/
def dictSet {α : Type} (l : List (String × α)) (k : String) (v : α) : List (String × α) :=
  if l.any (fun p => p.1 = k) then
    l.map (fun p => if p.1 = k then (k, v) else p)
  else
    l ++ [(k, v)]

/-- Behaviour of the capability agents: the driver is parameterised over an
arbitrary implementation of the `execute` contract; `Except.error` models a
raised fault. -/
def Behaviors : Type := AgentRole → ToolInput → Except String AgentResult

/-- The result-wrapper dict built at the end of
`AgentStateMachine._execute_agent`. -/
def wrapResult (agent_role : AgentRole) (r : AgentResult) : ExecResult :=
  { agent := roleValue agent_role
    success := r.success
    data := r.data
    confidence := r.confidence
    error_message := r.error_message
    side_effects := r.side_effects }

/-- `AgentStateMachine._execute_agent`: build the input, raise if
`validate_tool_preconditions` fails, then run the agent and wrap its
result. -/
def executeAgent (beh : Behaviors) (agent_role : AgentRole)
    (context : ExecutionContext) : Except String ExecResult :=
  let input_data := buildAgentInput agent_role context
  if ¬ validateToolPreconditions agent_role input_data then
    .error ("Preconditions not met for " ++ roleValue agent_role)
  else
    match beh agent_role input_data with
    | .error e => .error e
    | .ok result => .ok (wrapResult agent_role result)

/-- `AgentStateMachine._update_context_from_result`. -/
def updateContextFromResult (context : ExecutionContext) (agent_role : AgentRole)
    (result : ExecResult) : ExecutionContext :=
  if ¬ result.success then
    -- result.get("error_message", ...): the key is always present in the
    -- wrapper dict (possibly holding None), so the stored value is appended.
    { context with errors := context.errors ++ [result.error_message] }
  else
    let data := result.data
    let context' : ExecutionContext :=
      match agent_role with
      | .intent =>
        { context with
            intent := data.intent
            intent_confidence := data.confidence.getD 0 }
      | .planner =>
        { context with plan_steps := data.plan_steps, current_step := 0 }
      | .inventory | .ocr | .recipe =>
        { context with
            execution_results := context.execution_results ++ [result]
            current_step := context.current_step + 1 }
      | .validator =>
        let c := { context with
            validation_results := context.validation_results ++ [result] }
        if ¬ data.is_valid.getD true then
          { c with errors := c.errors ++ data.errors.map some }
        else c
      | _ => context
    { context' with
        metadata := dictSet context'.metadata (roleValue agent_role ++ "_result") result }

/-- One full run of the `while` loop of `AgentStateMachine.process_message`,
with `fuel` the remaining number of permitted iterations
(`max_iterations - iteration`).  Besides the final context it returns the
list of governor decisions (one per loop iteration) and the list of roles
whose `execute` method was actually invoked. -/
def runLoop (beh : Behaviors) :
    ExecutionContext → Nat → ExecutionContext × List AgentDecision × List AgentRole
  | context, 0 => (context, [], [])
  | context, fuel + 1 =>
    if context.current_state = .respond then (context, [], [])
    else
      let decision := decideNextAgent defaultRules context.current_state
        (buildGovernorContext context)
      if ¬ decision.preconditions_met then
        let context' := { context with
          current_state := .error
          errors := context.errors ++ [some (pyOr decision.reject_reason "Action rejected")] }
        let t := runLoop beh context' fuel
        (t.1, decision :: t.2.1, t.2.2)
      else
        -- inlined _execute_agent so that the trace records whether the
        -- behaviour was actually invoked (the precondition raise happens
        -- before `agent.execute`)
        let input_data := buildAgentInput decision.allowed_agent context
        if ¬ validateToolPreconditions decision.allowed_agent input_data then
          let context' := { context with
            current_state := .error
            errors := context.errors ++
              [some ("Preconditions not met for " ++ roleValue decision.allowed_agent)] }
          let t := runLoop beh context' fuel
          (t.1, decision :: t.2.1, t.2.2)
        else
          match beh decision.allowed_agent input_data with
          | .ok result =>
            let context' := updateContextFromResult context decision.allowed_agent
              (wrapResult decision.allowed_agent result)
            let context'' := { context' with current_state := decision.state }
            let t := runLoop beh context'' fuel
            (t.1, decision :: t.2.1, decision.allowed_agent :: t.2.2)
          | .error e =>
            let context' := { context with
              current_state := .error
              errors := context.errors ++ [some e] }
            let t := runLoop beh context' fuel
            (t.1, decision :: t.2.1, decision.allowed_agent :: t.2.2)

/-- The fresh `ExecutionContext` created at the top of `process_message`. -/
def initialContext (message : String) (kitchen_id : Int) (user_email : String) :
    ExecutionContext :=
  { user_message := message, kitchen_id := kitchen_id, user_email := user_email }

/-- The loop of `process_message` run from the fresh context with
`max_iterations = 10`. -/
def processTrace (beh : Behaviors) (message : String) (kitchen_id : Int)
    (user_email : String) : ExecutionContext × List AgentDecision × List AgentRole :=
  runLoop beh (initialContext message kitchen_id user_email) 10

/-- `AgentStateMachine._generate_error_response`.  The responder is called
directly (`error_agent.execute(...)`), outside any `try`, so a raised fault
propagates. -/
def generateErrorResponse (beh : Behaviors) (context : ExecutionContext) :
    Except String String :=
  let input : ToolInput :=
    { execution_state := some "error"
      ctx_error_reason := some (match context.errors.getLast? with
        | some e => e
        | none => some "Unknown error") }
  match beh .responder input with
  | .error e => .error e
  | .ok result => .ok (result.data.response.getD "Sorry, something went wrong.")

/-- `AgentStateMachine._generate_final_response`.  The responder is called
directly, outside any `try`, so a raised fault propagates. -/
def generateFinalResponse (beh : Behaviors) (context : ExecutionContext) :
    Except String String :=
  let input : ToolInput :=
    { execution_state := some "success"
      ctx_intent := context.intent
      ctx_execution_results := context.execution_results
      ctx_plan_steps := context.plan_steps }
  match beh .responder input with
  | .error e => .error e
  | .ok result => .ok (result.data.response.getD "Task completed successfully!")

/-- `AgentStateMachine.process_message`: run the loop, then produce the
final reply.  The return type is `Except String String` because the final
responder calls happen outside the loop's `try/except` and can raise. -/
def processMessage (beh : Behaviors) (message : String) (kitchen_id : Int)
    (user_email : String) : Except String String :=
  let t := processTrace beh message kitchen_id user_email
  let context := t.1
  if context.current_state = .error then generateErrorResponse beh context
  else generateFinalResponse beh context

/-! ## Cost optimizer (`cost_optimizer.py`) -/

/-- `ExitGate` enum from `cost_optimizer.py`. -/
inductive ExitGate where
  | rule_based
  | cached_intent
  | simple_crud
  | high_confidence
  | deterministic
deriving DecidableEq, Repr

/-- Union of the result-dict shapes returned by the four exit gates (absent
keys are `none` / `false`). -/
structure GateResult where
  intent : Option String := none
  response : Option String := none
  action : Option String := none
  confidence : Option ℚ := none
  cached : Bool := false
  quantity : Option Nat := none
  method : Option String := none
  exit_gate : Option ExitGate := none
  llm_calls : Option Nat := none
deriving DecidableEq, Repr

/-- One value of the `intent_cache` dict. -/
structure CachedIntent where
  intent : String
  confidence : ℚ
  cached : Bool
deriving DecidableEq, Repr

/-- Mutable state of a `CostOptimizer` instance (only `intent_cache`; the
pattern/keyword tables are constants). -/
structure CostOptimizerState where
  intent_cache : List (String × CachedIntent) := []
deriving DecidableEq, Repr

/-- Python `str.split()` / `str.strip()` whitespace. -/
def pySpace (c : Char) : Bool :=
  c = ' ' ∨ c = '\t' ∨ c = '\n' ∨ c = '\r' ∨ c = '\x0b' ∨ c = '\x0c'

/-- `message.lower()` as a character list (ASCII lowercasing). -/
def lowerChars (m : String) : List Char := m.data.map Char.toLower

/-- `s.strip()`. -/
def pyStrip (s : List Char) : List Char :=
  ((s.dropWhile pySpace).reverse.dropWhile pySpace).reverse

/-- `s.split()`: split on whitespace runs, discarding empty tokens
(accumulator-passing worker). -/
def wordsOfAux : List Char → List Char → List (List Char)
  | [], acc => if acc = [] then [] else [acc.reverse]
  | c :: cs, acc =>
    if pySpace c then
      if acc = [] then wordsOfAux cs [] else acc.reverse :: wordsOfAux cs []
    else wordsOfAux cs (c :: acc)

/-- `message.split()`. -/
def wordsOf (s : List Char) : List (List Char) := wordsOfAux s []

/-- Python `needle in haystack` substring test. -/
def containsSub (haystack needle : List Char) : Bool :=
  (List.range (haystack.length + 1)).any fun i => needle.isPrefixOf (haystack.drop i)

/-- Tokens of the (tiny) regular-expression dialect used by the
`simple_patterns` table: literal text, `.*` (any run of non-newline
characters) and `\d+` (one or more digits). -/
inductive RTok where
  | lit (s : String)
  | dotStar
  | digits
deriving DecidableEq, Repr

/-- Length of the maximal leading run a `.*` may consume (`.` does not
match a newline). -/
def maxDotRun (s : List Char) : Nat := (s.takeWhile (fun c => c ≠ '\n')).length

/-- Length of the maximal leading digit run. -/
def leadingDigitCount (s : List Char) : Nat := (s.takeWhile Char.isDigit).length

/-- Can the token list match some prefix of `s` (existence semantics of a
regex match anchored at the start of `s`)? -/
def matchToksFrom : List RTok → List Char → Bool
  | [], _ => true
  | .lit cs :: rest, s =>
    cs.data.isPrefixOf s && matchToksFrom rest (s.drop cs.data.length)
  | .dotStar :: rest, s =>
    (List.range (maxDotRun s + 1)).any fun k => matchToksFrom rest (s.drop k)
  | .digits :: rest, s =>
    (List.range (leadingDigitCount s)).any fun k => matchToksFrom rest (s.drop (k + 1))

/-- `re.search(pattern, s)` as a Boolean: the pattern matches starting at
some position of `s`. -/
def reSearch (p : List RTok) (s : List Char) : Bool :=
  (List.range (s.length + 1)).any fun i => matchToksFrom p (s.drop i)

/-- A pattern of the `simple_patterns` table: either an unanchored search
pattern, or the fully anchored alternation `^(hi|hello|hey)$` (with `$`
also matching just before one trailing newline, as in Python). -/
inductive Pat where
  | regex (toks : List RTok)
  | anchoredAlt (alts : List String)
deriving DecidableEq, Repr

/-- `re.search` of one table pattern against the lowercased message. -/
def matchPat (p : Pat) (s : List Char) : Bool :=
  match p with
  | .regex toks => reSearch toks s
  | .anchoredAlt alts => alts.any fun w => s == w.data || s == w.data ++ ['\n']

/-- The `self.simple_patterns` table of `CostOptimizer.__init__`, in
insertion order. -/
def simplePatterns : List (String × List Pat) :=
  [("inventory_list",
    [.regex [.lit "inventory", .dotStar, .lit "items"],
     .regex [.lit "what", .dotStar, .lit "inventory"],
     .regex [.lit "show", .dotStar, .lit "inventory"],
     .regex [.lit "list", .dotStar, .lit "items"]]),
   ("inventory_expiring",
    [.regex [.lit "expiring", .dotStar, .lit "soon"],
     .regex [.lit "items", .dotStar, .lit "expiring"],
     .regex [.lit "expired", .dotStar, .lit "items"],
     .regex [.lit "all", .dotStar, .lit "expired"]]),
   ("inventory_low_stock",
    [.regex [.lit "low", .dotStar, .lit "stock"],
     .regex [.lit "running", .dotStar, .lit "low"],
     .regex [.lit "almost", .dotStar, .lit "empty"]]),
   ("inventory_check",
    [.regex [.dotStar, .lit "i have"],
     .regex [.lit "check", .dotStar],
     .regex [.lit "how much", .dotStar],
     .regex [.lit "do", .dotStar, .lit "have"]]),
   ("inventory_add",
    [.regex [.lit "add ", .digits, .dotStar],
     .regex [.lit "put", .dotStar, .lit "in", .dotStar, .lit "pantry"]]),
   ("greeting",
    [.anchoredAlt ["hi", "hello", "hey"]]),
   ("help",
    [.regex [.lit "help"],
     .regex [.lit "what", .dotStar, .lit "can", .dotStar, .lit "do"]])]

/-- Numeric value of a digit run (`int(...)`). -/
def digitsVal (ds : List Char) : Nat :=
  ds.foldl (fun a c => a * 10 + (c.toNat - 48)) 0

/-- `re.search(r"add (\d+)", s)`: the first position where `add ` is
followed by at least one digit; the (greedy) captured digit run as a
number. -/
def extractAddQty (s : List Char) : Option Nat :=
  (List.range (s.length + 1)).findSome? fun i =>
    let t := s.drop i
    if ("add ".data).isPrefixOf t then
      let ds := (t.drop 4).takeWhile Char.isDigit
      if ds.length > 0 then some (digitsVal ds) else none
    else none

/-- The `exact_matches` table of `CostOptimizer._check_rule_based_exit`. -/
def exactMatches : List (String × GateResult) :=
  [("hello",
    { intent := some "greeting",
      response := some "Hello! 👋 I\x27m your PantryMind assistant. What can I help you with?" }),
   ("hi",
    { intent := some "greeting",
      response := some "Hi there! How can I help you manage your pantry today?" }),
   ("help",
    { intent := some "help",
      response := some "I can help you manage inventory, find recipes, process receipts, and analyze your pantry data." }),
   ("inventory", { intent := some "inventory_list", action := some "list_inventory" }),
   ("show inventory", { intent := some "inventory_list", action := some "list_inventory" }),
   ("list items", { intent := some "inventory_list", action := some "list_inventory" })]

/-- `CostOptimizer._check_rule_based_exit`. -/
def checkRuleBased (message : String) : Option GateResult :=
  let message_lower := pyStrip (lowerChars message)
  match exactMatches.find? (fun p => p.1.data == message_lower) with
  | some p => some { p.2 with exit_gate := some .rule_based, llm_calls := some 0 }
  | none => none

/-- The cache key `hashlib.md5(message.lower().encode()).hexdigest()`,
modelled as the lowercased message itself (only key equality is ever used,
and md5 is a fixed deterministic encoding of it). -/
def hashKey (message : String) : String := String.mk (lowerChars message)

/-- `CostOptimizer._check_cached_intent`. -/
def checkCachedIntent (st : CostOptimizerState) (message : String) : Option GateResult :=
  let message_hash := hashKey message
  match st.intent_cache.find? (fun p => p.1 == message_hash) with
  | some p =>
    some { intent := some p.2.intent
           confidence := some p.2.confidence
           cached := p.2.cached
           exit_gate := some .cached_intent
           llm_calls := some 0 }
  | none => none

/-- The per-intent result construction inside
`CostOptimizer._check_simple_crud`. -/
def crudResult (intentName : String) (message_lower : List Char) : GateResult :=
  let base : GateResult :=
    { intent := some intentName
      confidence := some (mkRat 19 20)
      exit_gate := some .simple_crud
      llm_calls := some 0 }
  if intentName = "inventory_add" then
    match extractAddQty message_lower with
    | some q => { base with quantity := some q, action := some "add_item" }
    | none => base
  else if intentName = "inventory_list" then { base with action := some "list_inventory" }
  else if intentName = "inventory_check" then { base with action := some "check_item" }
  else base

/-- `CostOptimizer._check_simple_crud`: the first intent (in table order)
with a matching pattern wins. -/
def checkSimpleCrud (message : String) : Option GateResult :=
  let message_lower := lowerChars message
  simplePatterns.findSome? fun p =>
    if p.2.any (fun pat => matchPat pat message_lower) then
      some (crudResult p.1 message_lower)
    else none

/-- `CostOptimizer.cache_intent`: dict upsert keyed by the hash of the
lowercased message. -/
def cacheIntent (st : CostOptimizerState) (message intent : String)
    (confidence : ℚ) : CostOptimizerState :=
  let entry : CachedIntent := { intent := intent, confidence := confidence, cached := true }
  { st with intent_cache := dictSet st.intent_cache (hashKey message) entry }

/-! ### `difflib.SequenceMatcher(None, a, b).ratio()`

For the short junk-free strings used here (`isjunk=None`, `len(b) < 200`,
so no junk and no "popular" elements), difflib's `find_longest_match`
returns the common substring of maximal length whose end pair `(i, j)` is
lexicographically least — the scan goes through ends in lexicographic
order and replaces the best match only on a strictly larger length.
`ratio` is `2*M/T` where `M` sums the block sizes of the recursive
longest-match decomposition and `T` the two lengths. -/

/-- Length of the longest common substring of `a` and `b` ending exactly at
index `i` of `a` and index `j` of `b` (0 when the positions are out of
range or the characters differ). -/
def endLen (a b : List Char) : Nat → Nat → Nat
  | i, j =>
    match a[i]?, b[j]? with
    | some x, some y =>
      if x = y then
        match i, j with
        | i' + 1, j' + 1 => endLen a b i' j' + 1
        | _, _ => 1
      else 0
    | _, _ => 0

/-- `find_longest_match` over the full ranges: scan all end pairs in
lexicographic order, keeping the first strictly-longer match; returns
`(start in a, start in b, size)` (`(0, 0, 0)` when there is no common
character, as in difflib). -/
def findLongestMatch (a b : List Char) : Nat × Nat × Nat :=
  (List.range a.length).foldl
    (fun best i =>
      (List.range b.length).foldl
        (fun best j =>
          let k := endLen a b i j
          if best.2.2 < k then (i + 1 - k, j + 1 - k, k) else best)
        best)
    (0, 0, 0)

/-- Total size of the matching blocks of `get_matching_blocks`: the size of
the longest match plus, recursively, the totals of the two flanking
slices.  The `fuel` argument bounds the recursion depth; every recursive
call strictly shrinks the combined slice length, so `a.length + b.length`
fuel (as used by `ratioOf`) is always sufficient. -/
def matchesTotalFuel : Nat → List Char → List Char → Nat
  | 0, _, _ => 0
  | fuel + 1, a, b =>
    let m := findLongestMatch a b
    let i := m.1
    let j := m.2.1
    let k := m.2.2
    if k = 0 then 0
    else
      k + matchesTotalFuel fuel (a.take i) (b.take j) +
        matchesTotalFuel fuel (a.drop (i + k)) (b.drop (j + k))

/-- `SequenceMatcher(None, a, b).ratio()` as an exact rational (difflib
returns `1.0` when both strings are empty). -/
def ratioOf (a b : List Char) : ℚ :=
  if a.length + b.length = 0 then 1
  else mkRat (2 * (matchesTotalFuel (a.length + b.length) a b : Int)) (a.length + b.length)

/-- The `intent_keywords` table of `CostOptimizer._check_semantic_similarity`,
in insertion order. -/
def intentKeywords : List (String × List String) :=
  [("inventory_add", ["add", "put", "store", "insert", "include"]),
   ("inventory_list", ["show", "list", "display", "view", "see"]),
   ("inventory_check", ["have", "check", "find", "search", "look"]),
   ("shopping_list", ["shopping", "buy", "purchase", "need", "list"]),
   ("recipe", ["cook", "make", "recipe", "prepare", "dish"]),
   ("help", ["help", "assist", "guide", "support"])]

/-- The inner `for word in message_lower.split(): ... break / else:
continue` loop: the score is the ratio of the FIRST word whose ratio
exceeds 0.7 (`none` models the `continue`). -/
def firstWordScore (keyword : List Char) : List (List Char) → Option ℚ
  | [] => none
  | word :: rest =>
    let similarity := ratioOf keyword word
    if mkRat 7 10 < similarity then some similarity else firstWordScore keyword rest

/-- Score of one `(intent, keyword)` pair: `0.8` on literal containment in
the lowercased message, else the first-word fuzzy score. -/
def pairScore (message_lower keyword : List Char) : Option ℚ :=
  if containsSub message_lower keyword then some (mkRat 4 5)
  else firstWordScore keyword (wordsOf message_lower)

/-- All `(intent, keyword)` pairs of the table in iteration order, each with
its score for this message. -/
def scoredPairs (message_lower : List Char) : List (String × Option ℚ) :=
  intentKeywords.bind fun p => p.2.map fun kw => (p.1, pairScore message_lower kw.data)

/-- The `if score > best_score` update of the best-match tracking. -/
def bestStep (best : Option String × ℚ) (q : String × Option ℚ) :
    Option String × ℚ :=
  match q.2 with
  | none => best
  | some score => if best.2 < score then (some q.1, score) else best

/-- The best-match fold over the scored pairs, starting from
`best_match = None, best_score = 0.0`. -/
def foldBest (l : List (String × Option ℚ)) : Option String × ℚ :=
  l.foldl bestStep (none, 0)

/-- `CostOptimizer._check_semantic_similarity` (`best_match` is only ever
set to a non-empty table intent, so Python truthiness of `best_match`
coincides with being `some`). -/
def checkSemanticSimilarity (message : String) : Option GateResult :=
  let message_lower := lowerChars message
  let best := foldBest (scoredPairs message_lower)
  match best.1 with
  | some best_match =>
    if mkRat 7 10 < best.2 then
      some { intent := some best_match
             confidence := some best.2
             exit_gate := some .deterministic
             llm_calls := some 0
             method := some "semantic_similarity" }
    else none
  | none => none

/-- `CostOptimizer.should_exit_early`: the four gates in fixed order, first
match wins. -/
def shouldExitEarly (st : CostOptimizerState) (message : String)
    (kitchen_id : Int) : Bool × Option GateResult :=
  match checkRuleBased message with
  | some rule_result => (true, some rule_result)
  | none =>
    match checkCachedIntent st message with
    | some cached_result => (true, some cached_result)
    | none =>
      match checkSimpleCrud message with
      | some crud_result => (true, some crud_result)
      | none =>
        match checkSemanticSimilarity message with
        | some similarity_result => (true, some similarity_result)
        | none => (false, none)

/-- Modelled from the spec's words for claim C7: the per-pair score when the
keyword is not contained in the message is the MAXIMUM per-word ratio,
considered when it exceeds 0.7 (the code instead stops at the first such
word).  Everything else mirrors `pairScore`. -/
def specPairScore (message_lower keyword : List Char) : Option ℚ :=
  if containsSub message_lower keyword then some (mkRat 4 5)
  else
    let cands := ((wordsOf message_lower).map (fun w => ratioOf keyword w)).filter
      (fun r => mkRat 7 10 < r)
    match cands with
    | [] => none
    | c :: cs => some (cs.foldl max c)

/-- The spec-described variant of the deterministic gate (differs from
`checkSemanticSimilarity` only in using `specPairScore`). -/
def specSemanticSimilarity (message : String) : Option GateResult :=
  let message_lower := lowerChars message
  let best := foldBest (intentKeywords.bind fun p =>
    p.2.map fun kw => (p.1, specPairScore message_lower kw.data))
  match best.1 with
  | some best_match =>
    if mkRat 7 10 < best.2 then
      some { intent := some best_match
             confidence := some best.2
             exit_gate := some .deterministic
             llm_calls := some 0
             method := some "semantic_similarity" }
    else none
  | none => none

/-! ## Concrete instances used by the counterexamples and witnesses -/

/-- An execution-result wrapper as produced when the OCR agent has just run
with confidence 0.6. -/
def ocrLowResult : ExecResult :=
  { agent := "ocr", success := true, data := {}, confidence := mkRat 3 5,
    error_message := none, side_effects := [] }

/-- A driver context at state EXECUTE directly after the OCR agent ran with
confidence 0.6. -/
def ocrLowContext : ExecutionContext :=
  { user_message := "scan this receipt", kitchen_id := 1, user_email := "u",
    current_state := .execute,
    plan_steps := [{ tool_type := some "ocr", operation := some "scan" }],
    current_step := 1,
    execution_results := [ocrLowResult] }

/-- Capability agents for the C2 counterexample: every agent succeeds,
except that the responder fails (success=false, error_message="boom") when
invoked on the error path inside the loop, and answers "SUCCESS-PATH" on
the success path. -/
def c2Behaviors : Behaviors := fun role input =>
  match role with
  | .responder =>
    if input.execution_state = some "error" then
      .ok { success := false, error_message := some "boom" }
    else
      .ok { success := true, data := { response := some "SUCCESS-PATH" } }
  | _ => .ok { success := true }

/-- Capability agents for the C3 counterexample: the responder always
raises; everything else succeeds. -/
def c3Behaviors : Behaviors := fun role _ =>
  match role with
  | .responder => .error "responder crashed"
  | _ => .ok { success := true }

/-- Benign capability agents: every call succeeds with an empty result. -/
def allOkBehaviors : Behaviors := fun _ _ => .ok { success := true }

/-- A plan step carrying only a tool type. -/
def invStep : PlanStep := { tool_type := some "inventory", operation := some "read" }

/-- A driver context at state PLAN holding a 6-step plan. -/
def sixStepContext : ExecutionContext :=
  { user_message := "do lots of things", kitchen_id := 1, user_email := "u",
    current_state := .plan,
    plan_steps := [invStep, invStep, invStep, invStep, invStep, invStep] }

/-- The context after the driver records the plan-size rejection: state set
to ERROR and the reject reason appended to `errors`. -/
def rejectedPlanContext (ctx : ExecutionContext) : ExecutionContext :=
  { ctx with
    current_state := .error
    errors := ctx.errors ++ [some "Exceeds max plan steps"] }

/-- The context after the driver's first iteration: the fresh context has
`intent_confidence = 0.0 < 0.7`, so the governor's INTENT routing always
rejects with "Low intent confidence" and the driver moves to ERROR,
appending that reason. -/
def lowIntentContext (message : String) (kitchen_id : Int) (user_email : String) :
    ExecutionContext :=
  { initialContext message kitchen_id user_email with
    current_state := .error
    errors := [some "Low intent confidence"] }

/-- The failing agent result the C2 counterexample's responder returns on
the loop's error path. -/
def boomResult : AgentResult :=
  { success := false, error_message := some "boom" }

/-- A failed agent-result wrapper used by the C2 witness. -/
def failedResult : ExecResult :=
  { agent := "responder", success := false, data := {}, confidence := 0,
    error_message := some "boom", side_effects := [] }

/-- The rule-based gate's result for "hello". -/
def helloRuleGate : GateResult :=
  { intent := some "greeting",
    response := some "Hello! 👋 I\x27m your PantryMind assistant. What can I help you with?",
    exit_gate := some .rule_based, llm_calls := some 0 }

/-- The cached-intent gate's result after `cache_intent(m, intent,
confidence)`. -/
def cachedGate (intent : String) (confidence : ℚ) : GateResult :=
  { intent := some intent, confidence := some confidence, cached := true,
    exit_gate := some .cached_intent, llm_calls := some 0 }

end PantryMind

deriving instance DecidableEq for Except

namespace PantryMind

/-! ## Theorems -/

/-- C1: in every Governor call the driver makes at state EXECUTE, the
context built by `_build_governor_context` carries `current_agent = None`
(the dataclass has no such attribute and nothing assigns it), so even
directly after the OCR agent ran with execution-result confidence 0.6 the
decision is RESPONDER/RESPOND — not the VALIDATOR/VALIDATE the claim and
spec scenario (6) require.  The governor's own routing, fed the role that
just ran, would return VALIDATOR/VALIDATE: the slip is in the context
builder. -/
theorem c1_ocr_low_confidence_skips_validator :
    ocrLowContext.current_state = .execute ∧
    ocrLowContext.execution_results.getLast? = some ocrLowResult ∧
    ocrLowResult.agent = "ocr" ∧
    ocrLowResult.confidence < defaultRules.ocr_confidence_threshold ∧
    (buildGovernorContext ocrLowContext).current_agent = none ∧
    (decideNextAgent defaultRules ocrLowContext.current_state
      (buildGovernorContext ocrLowContext)).allowed_agent = .responder ∧
    (decideNextAgent defaultRules ocrLowContext.current_state
      (buildGovernorContext ocrLowContext)).state = .respond ∧
    (decideNextAgent defaultRules .execute
      { buildGovernorContext ocrLowContext with
          current_agent := some .ocr }).allowed_agent = .validator ∧
    (decideNextAgent defaultRules .execute
      { buildGovernorContext ocrLowContext with
          current_agent := some .ocr }).state = .validate :=
  ⟨rfl, rfl, rfl, by norm_num [ocrLowResult, defaultRules], rfl, rfl, rfl,
   by norm_num [decideNextAgent, routeFromExecute, buildGovernorContext,
     ocrLowContext, ocrLowResult, defaultRules],
   by norm_num [decideNextAgent, routeFromExecute, buildGovernorContext,
     ocrLowContext, ocrLowResult, defaultRules]⟩

/-- C9: `decide_next_agent` is pure and deterministic — identical
`(state, context)` snapshots yield decisions identical in every field, and
the call leaves the Governor's rule state unchanged. -/
theorem c9_governor_pure (rules : GovernorRules) (s : ExecutionState)
    (c₁ c₂ : GovCtx) (h : c₁ = c₂) :
    decideNextAgentSt rules s c₁ = decideNextAgentSt rules s c₂ ∧
    (decideNextAgentSt rules s c₁).2 = rules ∧
    (decideNextAgent rules s c₁).allowed_agent = (decideNextAgent rules s c₂).allowed_agent ∧
    (decideNextAgent rules s c₁).state = (decideNextAgent rules s c₂).state ∧
    (decideNextAgent rules s c₁).confidence = (decideNextAgent rules s c₂).confidence ∧
    (decideNextAgent rules s c₁).reasoning = (decideNextAgent rules s c₂).reasoning ∧
    (decideNextAgent rules s c₁).preconditions_met
      = (decideNextAgent rules s c₂).preconditions_met ∧
    (decideNextAgent rules s c₁).reject_reason = (decideNextAgent rules s c₂).reject_reason := by
  subst h
  exact ⟨rfl, rfl, rfl, rfl, rfl, rfl, rfl, rfl⟩

/-- Witness for C9 at a concrete snapshot. -/
theorem c9_governor_pure_witness :
    decideNextAgentSt defaultRules .intent {} = decideNextAgentSt defaultRules .intent {} ∧
    (decideNextAgentSt defaultRules .intent {}).2 = defaultRules ∧
    (decideNextAgent defaultRules .intent {}).allowed_agent
      = (decideNextAgent defaultRules .intent {}).allowed_agent ∧
    (decideNextAgent defaultRules .intent {}).state
      = (decideNextAgent defaultRules .intent {}).state ∧
    (decideNextAgent defaultRules .intent {}).confidence
      = (decideNextAgent defaultRules .intent {}).confidence ∧
    (decideNextAgent defaultRules .intent {}).reasoning
      = (decideNextAgent defaultRules .intent {}).reasoning ∧
    (decideNextAgent defaultRules .intent {}).preconditions_met
      = (decideNextAgent defaultRules .intent {}).preconditions_met ∧
    (decideNextAgent defaultRules .intent {}).reject_reason
      = (decideNextAgent defaultRules .intent {}).reject_reason :=
  c9_governor_pure defaultRules .intent {} {} rfl

/-- Each loop iteration consumes one unit of fuel, so the decision trace is
no longer than the fuel. -/
theorem runLoop_decisions_length_le (beh : Behaviors) :
    ∀ (fuel : Nat) (ctx : ExecutionContext),
      ((runLoop beh ctx fuel).2.1).length ≤ fuel := by
  intro fuel
  induction fuel with
  | zero => intro ctx; simp [runLoop]
  | succ n ih =>
    intro ctx
    rw [runLoop]
    dsimp only
    split
    · simp
    · split
      · simpa using Nat.succ_le_succ (ih _)
      · split
        · simpa using Nat.succ_le_succ (ih _)
        · split
          · simpa using Nat.succ_le_succ (ih _)
          · simpa using Nat.succ_le_succ (ih _)

/-- C5: for every input and every behaviour of the capability agents, the
driver loop of `process_message` performs at most 10 iterations (at most 10
Governor decisions) before exiting. -/
theorem c5_at_most_ten_iterations (beh : Behaviors) (message : String)
    (kitchen_id : Int) (user_email : String) :
    ((processTrace beh message kitchen_id user_email).2.1).length ≤ 10 :=
  runLoop_decisions_length_le beh 10 (initialContext message kitchen_id user_email)

/-- `_update_context_from_result` only ever appends to `errors`. -/
theorem updateContext_errors_extend (ctx : ExecutionContext) (role : AgentRole)
    (r : ExecResult) : ctx.errors <+: (updateContextFromResult ctx role r).errors := by
  unfold updateContextFromResult
  dsimp only
  split
  · exact List.prefix_append _ _
  · split
    any_goals exact List.prefix_rfl
    split
    · exact List.prefix_append _ _
    · exact List.prefix_rfl

/-- Helper fixing elaboration order: prefixes are preserved through one more
application of the loop. -/
theorem runLoop_errors_mono (beh : Behaviors) (n : Nat)
    (ih : ∀ c, c.errors <+: ((runLoop beh c n).1).errors)
    (ctx' : ExecutionContext) {l : List (Option String)} (h : l <+: ctx'.errors) :
    l <+: ((runLoop beh ctx' n).1).errors :=
  h.trans (ih ctx')

/-- Across any number of loop iterations, `errors` only grows at the end. -/
theorem runLoop_errors_extend (beh : Behaviors) :
    ∀ (fuel : Nat) (ctx : ExecutionContext),
      ctx.errors <+: ((runLoop beh ctx fuel).1).errors := by
  intro fuel
  induction fuel with
  | zero => intro ctx; simp [runLoop]
  | succ n ih =>
    intro ctx
    rw [runLoop]
    dsimp only
    split
    · exact List.prefix_rfl
    · split
      · exact runLoop_errors_mono beh n ih _ (List.prefix_append _ _)
      · split
        · exact runLoop_errors_mono beh n ih _ (List.prefix_append _ _)
        · split
          · exact runLoop_errors_mono beh n ih _ (updateContext_errors_extend _ _ _)
          · exact runLoop_errors_mono beh n ih _ (List.prefix_append _ _)

/-- Every run's first loop iteration rejects: the fresh context carries
`intent_confidence = 0.0`, below the 0.7 threshold, so the governor rejects
with "Low intent confidence", the driver appends that reason and moves to
ERROR, and the run continues from `lowIntentContext`. -/
theorem runLoop_first_iteration_rejects (beh : Behaviors) (m : String) (k : Int)
    (e : String) :
    ∀ f : Nat, runLoop beh (initialContext m k e) (f + 1) =
      ((runLoop beh (lowIntentContext m k e) f).1,
       decideNextAgent defaultRules .intent (buildGovernorContext (initialContext m k e)) ::
         (runLoop beh (lowIntentContext m k e) f).2.1,
       (runLoop beh (lowIntentContext m k e) f).2.2) := by
  intro f
  have hlt : (buildGovernorContext (initialContext m k e)).intent_confidence
      < defaultRules.require_intent_confidence := by
    show (0 : ℚ) < mkRat 7 10
    decide
  have hdec : decideNextAgent defaultRules .intent (buildGovernorContext (initialContext m k e))
      = { allowed_agent := .responder, state := .respond, confidence := 1,
          reasoning := "Intent unclear, need clarification",
          preconditions_met := false,
          reject_reason := some "Low intent confidence" } := by
    simp [decideNextAgent, routeFromIntent, hlt]
  have hstate : (initialContext m k e).current_state = .intent := rfl
  rw [runLoop, hstate, hdec]
  simp [pyOr, lowIntentContext, initialContext]

/-- C2 (amended): the `errors` list is append-only across the driver loop;
when an agent returns `success=false` its `error_message` is appended to
`errors`; and every run's loop does reach state ERROR — the first
iteration always rejects with "Low intent confidence", so at the moment
`errors` first becomes non-empty the state is ERROR.  What fails is the
claim's terminal part: the run need NOT terminate in ERROR (see the
counterexample `c2_failed_agent_run_ends_in_respond`). -/
theorem c2_errors_append_only :
    (∀ (beh : Behaviors) (fuel : Nat) (ctx : ExecutionContext),
      ctx.errors <+: ((runLoop beh ctx fuel).1).errors) ∧
    (∀ (ctx : ExecutionContext) (role : AgentRole) (r : ExecResult),
      r.success = false →
      (updateContextFromResult ctx role r).errors = ctx.errors ++ [r.error_message]) ∧
    (∀ (beh : Behaviors) (m : String) (k : Int) (e : String),
      processTrace beh m k e =
        ((runLoop beh (lowIntentContext m k e) 9).1,
         decideNextAgent defaultRules .intent (buildGovernorContext (initialContext m k e)) ::
           (runLoop beh (lowIntentContext m k e) 9).2.1,
         (runLoop beh (lowIntentContext m k e) 9).2.2) ∧
      (lowIntentContext m k e).current_state = .error ∧
      (lowIntentContext m k e).errors = [some "Low intent confidence"]) :=
  ⟨fun beh fuel ctx => runLoop_errors_extend beh fuel ctx,
   fun ctx role r h => by simp [updateContextFromResult, h],
   fun beh m k e => ⟨runLoop_first_iteration_rejects beh m k e 9, rfl, rfl⟩⟩

/-- Witness for C2 (amended) at concrete inputs. -/
theorem c2_errors_append_only_witness :
    ((initialContext "add milk" 1 "u").errors <+:
      ((runLoop c2Behaviors (initialContext "add milk" 1 "u") 10).1).errors) ∧
    ((updateContextFromResult (initialContext "add milk" 1 "u") .responder
      failedResult).errors = (initialContext "add milk" 1 "u").errors ++
      [failedResult.error_message]) ∧
    (processTrace c2Behaviors "add milk" 1 "u" =
        ((runLoop c2Behaviors (lowIntentContext "add milk" 1 "u") 9).1,
         decideNextAgent defaultRules .intent
           (buildGovernorContext (initialContext "add milk" 1 "u")) ::
           (runLoop c2Behaviors (lowIntentContext "add milk" 1 "u") 9).2.1,
         (runLoop c2Behaviors (lowIntentContext "add milk" 1 "u") 9).2.2) ∧
      (lowIntentContext "add milk" 1 "u").current_state = .error ∧
      (lowIntentContext "add milk" 1 "u").errors = [some "Low intent confidence"]) :=
  ⟨c2_errors_append_only.1 c2Behaviors 10 (initialContext "add milk" 1 "u"),
   c2_errors_append_only.2.1 (initialContext "add milk" 1 "u") .responder failedResult rfl,
   c2_errors_append_only.2.2 c2Behaviors "add milk" 1 "u"⟩

/-- C2 counterexample: with agents that all succeed except that the
responder fails (success=false, error "boom") on the loop's error path, the
error message is appended to `errors` but the run terminates in state
RESPOND — not ERROR — and the success-path Responder call produces the
reply. -/
theorem c2_failed_agent_run_ends_in_respond :
    c2Behaviors .responder (buildAgentInput .responder (lowIntentContext "add milk" 1 "u"))
      = Except.ok boomResult ∧
    boomResult.success = false ∧
    processMessage c2Behaviors "add milk" 1 "u" = .ok "SUCCESS-PATH" ∧
    (processTrace c2Behaviors "add milk" 1 "u").1.current_state = .respond ∧
    (processTrace c2Behaviors "add milk" 1 "u").1.current_state ≠ .error ∧
    (processTrace c2Behaviors "add milk" 1 "u").1.errors
      = [some "Low intent confidence", some "boom"] := by
  refine ⟨by decide, by decide, by decide, by decide, by decide, by decide⟩

/-- C3 counterexample: a capability-agent implementation whose responder
raises makes the raised fault escape `process_message` itself (the final
responder calls in `_generate_error_response` / `_generate_final_response`
happen outside the loop's `try/except`). -/
theorem c3_responder_fault_escapes :
    processMessage c3Behaviors "hi" 1 "u" = .error "responder crashed" := by
  decide

/-- C3 (amended): faults raised by agents invoked inside the driver loop are
all captured there; a fault can escape `process_message` only from the two
final Responder calls, so whenever the responder behaviour never raises,
`process_message` returns a reply for every input and every behaviour of
the remaining agents. -/
theorem c3_no_escape_when_responder_returns (beh : Behaviors) (message : String)
    (kitchen_id : Int) (user_email : String)
    (h : ∀ input, (beh .responder input).isOk = true) :
    (processMessage beh message kitchen_id user_email).isOk = true := by
  have h' : ∀ input e, beh .responder input ≠ .error e := by
    intro input e hc
    have hx := h input
    rw [hc] at hx
    simp [Except.isOk, Except.toBool] at hx
  unfold processMessage
  dsimp only
  split
  · unfold generateErrorResponse
    dsimp only
    split
    · rename_i e heq
      exact absurd heq (h' _ _)
    · rfl
  · unfold generateFinalResponse
    dsimp only
    split
    · rename_i e heq
      exact absurd heq (h' _ _)
    · rfl

/-- Witness for C3 (amended) with benign agents. -/
theorem c3_no_escape_witness :
    (processMessage allOkBehaviors "hi" 1 "u").isOk = true :=
  c3_no_escape_when_responder_returns allOkBehaviors "hi" 1 "u" (fun _ => rfl)

/-- From a context in state ERROR or RESPOND, the remaining loop iterations
only ever invoke the responder (ERROR takes the governor's default decision
to RESPONDER; RESPOND exits). -/
theorem err_respond_only_responder (beh : Behaviors) :
    ∀ (fuel : Nat) (ctx : ExecutionContext),
      (ctx.current_state = .error ∨ ctx.current_state = .respond) →
      ∀ r ∈ (runLoop beh ctx fuel).2.2, r = .responder := by
  intro fuel
  induction fuel with
  | zero => intro ctx h r hr; simp [runLoop] at hr
  | succ n ih =>
    intro ctx h r hr
    rcases h with h | h
    · rw [runLoop, h] at hr
      simp only [decideNextAgent, validateToolPreconditions] at hr
      cases hbeh : beh AgentRole.responder (buildAgentInput AgentRole.responder ctx) with
      | ok result =>
        rw [hbeh] at hr
        dsimp only at hr
        rcases List.mem_cons.mp hr with h1 | h1
        · exact h1
        · exact ih _ (Or.inr rfl) r h1
      | error e =>
        rw [hbeh] at hr
        dsimp only at hr
        rcases List.mem_cons.mp hr with h1 | h1
        · exact h1
        · exact ih _ (Or.inl rfl) r h1
    · rw [runLoop, h] at hr
      simp at hr

/-- C4: whenever the driver consults the Governor at state PLAN over a
context with more than 5 plan steps, the decision is a rejection with
reason "Exceeds max plan steps"; the driver's iteration then only records
that reason (moving to ERROR) and invokes no agent, and the rest of the run
never invokes an EXECUTE-state agent (INVENTORY, OCR or RECIPE). -/
theorem c4_plan_cap (beh : Behaviors) (ctx : ExecutionContext) (fuel : Nat)
    (hstate : ctx.current_state = .plan) (h5 : 5 < ctx.plan_steps.length) :
    (decideNextAgent defaultRules ctx.current_state
      (buildGovernorContext ctx)).preconditions_met = false ∧
    (decideNextAgent defaultRules ctx.current_state
      (buildGovernorContext ctx)).reject_reason = some "Exceeds max plan steps" ∧
    runLoop beh ctx (fuel + 1) =
      ((runLoop beh (rejectedPlanContext ctx) fuel).1,
       decideNextAgent defaultRules ctx.current_state (buildGovernorContext ctx) ::
         (runLoop beh (rejectedPlanContext ctx) fuel).2.1,
       (runLoop beh (rejectedPlanContext ctx) fuel).2.2) ∧
    (∀ r ∈ (runLoop beh ctx fuel).2.2,
      r ≠ .inventory ∧ r ≠ .ocr ∧ r ≠ .recipe) := by
  have hgt : (buildGovernorContext ctx).plan_steps.length > defaultRules.max_plan_steps := by
    simpa [buildGovernorContext, defaultRules] using h5
  have hdecP : decideNextAgent defaultRules .plan (buildGovernorContext ctx)
      = { allowed_agent := .responder, state := .respond, confidence := 1,
          reasoning := "Plan too complex", preconditions_met := false,
          reject_reason := some "Exceeds max plan steps" } := by
    simp [decideNextAgent, routeFromPlan, hgt]
  have hdec : decideNextAgent defaultRules ctx.current_state (buildGovernorContext ctx)
      = { allowed_agent := .responder, state := .respond, confidence := 1,
          reasoning := "Plan too complex", preconditions_met := false,
          reject_reason := some "Exceeds max plan steps" } := by
    rw [hstate]; exact hdecP
  have hstep : ∀ f, runLoop beh ctx (f + 1) =
      ((runLoop beh (rejectedPlanContext ctx) f).1,
       decideNextAgent defaultRules ctx.current_state (buildGovernorContext ctx) ::
         (runLoop beh (rejectedPlanContext ctx) f).2.1,
       (runLoop beh (rejectedPlanContext ctx) f).2.2) := by
    intro f
    rw [runLoop, hstate, hdecP]
    simp [pyOr, rejectedPlanContext]
  refine ⟨by rw [hdec], by rw [hdec], hstep fuel, ?_⟩
  cases fuel with
  | zero => intro r hr; simp [runLoop] at hr
  | succ f =>
    intro r hr
    rw [hstep f] at hr
    have hresp := err_respond_only_responder beh f
      (rejectedPlanContext ctx) (Or.inl rfl) r hr
    rw [hresp]
    exact ⟨by decide, by decide, by decide⟩

/-- Witness for C4 on a concrete 6-step plan. -/
theorem c4_plan_cap_witness :
    (decideNextAgent defaultRules sixStepContext.current_state
      (buildGovernorContext sixStepContext)).preconditions_met = false ∧
    (decideNextAgent defaultRules sixStepContext.current_state
      (buildGovernorContext sixStepContext)).reject_reason = some "Exceeds max plan steps" ∧
    (∀ r ∈ (runLoop allOkBehaviors sixStepContext 3).2.2,
      r ≠ .inventory ∧ r ≠ .ocr ∧ r ≠ .recipe) :=
  ⟨(c4_plan_cap allOkBehaviors sixStepContext 3 rfl (by decide)).1,
   (c4_plan_cap allOkBehaviors sixStepContext 3 rfl (by decide)).2.1,
   (c4_plan_cap allOkBehaviors sixStepContext 3 rfl (by decide)).2.2.2⟩

/-- C6: `should_exit_early` evaluates its four gates in the fixed order
RULE_BASED, CACHED_INTENT, SIMPLE_CRUD, DETERMINISTIC and returns the first
match, never consulting a later gate once an earlier one matched; "hello"
always resolves via the RULE_BASED gate even though the SIMPLE_CRUD gate
would also match it; and `(false, none)` is returned exactly when no gate
matches. -/
theorem c6_gate_priority :
    (∀ (st : CostOptimizerState) (m : String) (k : Int) (r : GateResult),
      checkRuleBased m = some r → shouldExitEarly st m k = (true, some r)) ∧
    (∀ (st : CostOptimizerState) (m : String) (k : Int) (r : GateResult),
      checkRuleBased m = none → checkCachedIntent st m = some r →
      shouldExitEarly st m k = (true, some r)) ∧
    (∀ (st : CostOptimizerState) (m : String) (k : Int) (r : GateResult),
      checkRuleBased m = none → checkCachedIntent st m = none →
      checkSimpleCrud m = some r → shouldExitEarly st m k = (true, some r)) ∧
    (∀ (st : CostOptimizerState) (m : String) (k : Int) (r : GateResult),
      checkRuleBased m = none → checkCachedIntent st m = none →
      checkSimpleCrud m = none → checkSemanticSimilarity m = some r →
      shouldExitEarly st m k = (true, some r)) ∧
    (∀ (st : CostOptimizerState) (k : Int),
      shouldExitEarly st "hello" k = (true, some helloRuleGate) ∧
      (checkSimpleCrud "hello").isSome = true) ∧
    (∀ (st : CostOptimizerState) (m : String) (k : Int),
      shouldExitEarly st m k = (false, none) ↔
      (checkRuleBased m = none ∧ checkCachedIntent st m = none ∧
       checkSimpleCrud m = none ∧ checkSemanticSimilarity m = none)) := by
  refine ⟨?_, ?_, ?_, ?_, ?_, ?_⟩
  · intro st m k r h1
    simp [shouldExitEarly, h1]
  · intro st m k r h1 h2
    simp [shouldExitEarly, h1, h2]
  · intro st m k r h1 h2 h3
    simp [shouldExitEarly, h1, h2, h3]
  · intro st m k r h1 h2 h3 h4
    simp [shouldExitEarly, h1, h2, h3, h4]
  · intro st k
    constructor
    · simp [shouldExitEarly, show checkRuleBased "hello" = some helloRuleGate from by decide]
    · decide
  · intro st m k
    constructor
    · intro h
      rcases h1 : checkRuleBased m with _ | r₁
      · rcases h2 : checkCachedIntent st m with _ | r₂
        · rcases h3 : checkSimpleCrud m with _ | r₃
          · rcases h4 : checkSemanticSimilarity m with _ | r₄
            · exact ⟨rfl, rfl, rfl, rfl⟩
            · simp [shouldExitEarly, h1, h2, h3, h4] at h
          · simp [shouldExitEarly, h1, h2, h3] at h
        · simp [shouldExitEarly, h1, h2] at h
      · simp [shouldExitEarly, h1] at h
    · rintro ⟨h1, h2, h3, h4⟩
      simp [shouldExitEarly, h1, h2, h3, h4]

/-- Witness for C6: a cached message that misses the rule-based gate is
resolved by the cached-intent gate. -/
theorem c6_gate_priority_witness :
    shouldExitEarly (cacheIntent {} "quinoa bowl" "cooking" (mkRat 9 10)) "quinoa bowl" 7
      = (true, some (cachedGate "cooking" (mkRat 9 10))) :=
  c6_gate_priority.2.1 (cacheIntent {} "quinoa bowl" "cooking" (mkRat 9 10)) "quinoa bowl" 7
    (cachedGate "cooking" (mkRat 9 10)) (by decide) (by decide)

/-- The `for ... break / else continue` word loop picks the FIRST word
whose ratio exceeds 0.7. -/
theorem firstWordScore_eq (keyword : List Char) (ws : List (List Char)) :
    firstWordScore keyword ws
      = (ws.find? (fun w => mkRat 7 10 < ratioOf keyword w)).map
          (fun w => ratioOf keyword w) := by
  induction ws with
  | nil => rfl
  | cons w rest ih =>
    by_cases h : mkRat 7 10 < ratioOf keyword w
    · rw [firstWordScore, if_pos h, List.find?_cons_of_pos _ (by simpa using h)]
      rfl
    · rw [firstWordScore, if_neg h, List.find?_cons_of_neg _ (by simpa using h), ih]

/-- C7 (amended): each `(intent, keyword)` pair scores 0.8 on literal
containment, and otherwise the ratio of the FIRST message token whose
similarity ratio exceeds 0.7 - not the maximum over tokens (see the
counterexample); the gate accepts exactly when a best match exists with
best score above 0.7. -/
theorem c7_pair_score_semantics :
    (∀ (keyword : List Char) (ws : List (List Char)),
      firstWordScore keyword ws
        = (ws.find? (fun w => mkRat 7 10 < ratioOf keyword w)).map
            (fun w => ratioOf keyword w)) ∧
    (∀ (ml kw : List Char), pairScore ml kw =
      if containsSub ml kw then some (mkRat 4 5)
      else ((wordsOf ml).find? (fun w => mkRat 7 10 < ratioOf kw w)).map
            (fun w => ratioOf kw w)) ∧
    (∀ m : String, (checkSemanticSimilarity m).isSome = true ↔
      ((foldBest (scoredPairs (lowerChars m))).1.isSome = true ∧
        mkRat 7 10 < (foldBest (scoredPairs (lowerChars m))).2)) := by
  refine ⟨firstWordScore_eq, ?_, ?_⟩
  · intro ml kw
    by_cases h : containsSub ml kw
    · simp [pairScore, h]
    · simp [pairScore, h, firstWordScore_eq]
  · intro m
    rcases hb : (foldBest (scoredPairs (lowerChars m))).1 with _ | i
    · simp [checkSemanticSimilarity, hb]
    · by_cases hlt : mkRat 7 10 < (foldBest (scoredPairs (lowerChars m))).2
      · simp [checkSemanticSimilarity, hb, hlt]
      · simp [checkSemanticSimilarity, hb, hlt]


/-- The strict-greater best-match fold, fully characterised: either no
score beats the accumulator, or the result is the earliest pair attaining
the final (maximal) score. -/
theorem foldl_bestStep_spec (l : List (String × Option ℚ)) :
    ∀ acc : Option String × ℚ,
      (l.foldl bestStep acc = acc ∧ ∀ r ∈ l, ∀ t, r.2 = some t → t ≤ acc.2) ∨
      (∃ pre q post, l = pre ++ q :: post ∧
        q.2 = some (l.foldl bestStep acc).2 ∧
        (l.foldl bestStep acc).1 = some q.1 ∧
        acc.2 < (l.foldl bestStep acc).2 ∧
        (∀ r ∈ pre, ∀ t, r.2 = some t → t < (l.foldl bestStep acc).2) ∧
        (∀ r ∈ post, ∀ t, r.2 = some t → t ≤ (l.foldl bestStep acc).2)) := by
  induction l with
  | nil =>
    intro acc
    left
    exact ⟨rfl, by simp⟩
  | cons q rest ih =>
    intro acc
    rw [List.foldl_cons]
    rcases hq : q.2 with _ | sc
    · have hstep : bestStep acc q = acc := by simp [bestStep, hq]
      rw [hstep]
      rcases ih acc with ⟨he, hall⟩ | ⟨pre, qq, post, hsplit, h2, h1, hlt, hpre, hpost⟩
      · left
        refine ⟨he, ?_⟩
        intro r hr t ht
        rcases List.mem_cons.mp hr with rfl | hr'
        · rw [hq] at ht; cases ht
        · exact hall r hr' t ht
      · right
        refine ⟨q :: pre, qq, post, by rw [hsplit]; simp, h2, h1, hlt, ?_, hpost⟩
        intro r hr t ht
        rcases List.mem_cons.mp hr with rfl | hr'
        · rw [hq] at ht; cases ht
        · exact hpre r hr' t ht
    · by_cases hlt0 : acc.2 < sc
      · have hstep : bestStep acc q = (some q.1, sc) := by simp [bestStep, hq, hlt0]
        rw [hstep]
        rcases ih (some q.1, sc) with ⟨he, hall⟩ | ⟨pre, qq, post, hsplit, h2, h1, hlt, hpre, hpost⟩
        · right
          rw [he]
          refine ⟨[], q, rest, rfl, by rw [hq], rfl, hlt0, by simp, ?_⟩
          simpa using hall
        · right
          refine ⟨q :: pre, qq, post, by rw [hsplit]; simp, h2, h1, lt_trans hlt0 hlt, ?_, hpost⟩
          intro r hr t ht
          rcases List.mem_cons.mp hr with rfl | hr'
          · rw [hq] at ht; cases ht; exact hlt
          · exact hpre r hr' t ht
      · have hstep : bestStep acc q = acc := by simp [bestStep, hq, hlt0]
        rw [hstep]
        have hle : sc ≤ acc.2 := not_lt.mp hlt0
        rcases ih acc with ⟨he, hall⟩ | ⟨pre, qq, post, hsplit, h2, h1, hlt, hpre, hpost⟩
        · left
          refine ⟨he, ?_⟩
          intro r hr t ht
          rcases List.mem_cons.mp hr with rfl | hr'
          · rw [hq] at ht; cases ht; exact hle
          · exact hall r hr' t ht
        · right
          refine ⟨q :: pre, qq, post, by rw [hsplit]; simp, h2, h1, hlt, ?_, hpost⟩
          intro r hr t ht
          rcases List.mem_cons.mp hr with rfl | hr'
          · rw [hq] at ht; cases ht; exact lt_of_le_of_lt hle hlt
          · exact hpre r hr' t ht

/-- C10: the best-match tracking replaces its candidate only on a STRICTLY
greater score, so the returned intent is the one of the earliest
`(intent, keyword)` pair (in keyword-table iteration order) attaining the
maximal score; a later equal-scoring pair never overwrites it. -/
theorem c10_earliest_max_wins :
    (∀ (i : String) (s : ℚ) (j : String),
      bestStep (some i, s) (j, some s) = (some i, s)) ∧
    (∀ (ml : List Char) (i : String) (s : ℚ),
      foldBest (scoredPairs ml) = (some i, s) →
      ∃ pre q post, scoredPairs ml = pre ++ q :: post ∧ q.1 = i ∧ q.2 = some s ∧
        (∀ r ∈ pre, ∀ t, r.2 = some t → t < s) ∧
        (∀ r ∈ scoredPairs ml, ∀ t, r.2 = some t → t ≤ s)) := by
  constructor
  · intro i s j
    simp [bestStep]
  · intro ml i s h
    rw [foldBest] at h
    rcases foldl_bestStep_spec (scoredPairs ml) (none, 0) with ⟨he, _⟩ |
      ⟨pre, q, post, hsplit, h2, h1, _, hpre, hpost⟩
    · rw [he] at h
      simp at h
    · rw [h] at h2 h1 hpre hpost
      have hqi : q.1 = i := by
        have := h1.symm
        injection this
      refine ⟨pre, q, post, hsplit, hqi, h2, hpre, ?_⟩
      intro r hr t ht
      rw [hsplit] at hr
      rcases List.mem_append.mp hr with hr' | hr'
      · exact le_of_lt (hpre r hr' t ht)
      · rcases List.mem_cons.mp hr' with rfl | hr''
        · rw [h2] at ht; cases ht; exact le_refl _
        · exact hpost r hr'' t ht

set_option maxRecDepth 80000 in
/-- Witness for C10 at the concrete message "shopnig shoping". -/
theorem c10_earliest_max_wins_witness :
    ∃ pre q post, scoredPairs (lowerChars "shopnig shoping") = pre ++ q :: post ∧
      q.1 = "shopping_list" ∧ q.2 = some (mkRat 4 5) ∧
      (∀ r ∈ pre, ∀ t, r.2 = some t → t < mkRat 4 5) ∧
      (∀ r ∈ scoredPairs (lowerChars "shopnig shoping"), ∀ t,
        r.2 = some t → t ≤ mkRat 4 5) :=
  c10_earliest_max_wins.2 (lowerChars "shopnig shoping") "shopping_list" (mkRat 4 5)
    (by decide)

set_option maxRecDepth 80000 in
/-- C7 counterexample: on the message "shopnig shoping" the keyword
"shopping" scores 0.8 against the first token in the code, while the
spec's maximum-per-word reading yields 14/15 (the second token's ratio);
the two gate results differ. -/
theorem c7_first_word_not_max_counterexample :
    (checkSemanticSimilarity "shopnig shoping").bind (fun r => r.confidence)
      = some (mkRat 4 5) ∧
    (specSemanticSimilarity "shopnig shoping").bind (fun r => r.confidence)
      = some (mkRat 14 15) ∧
    checkSemanticSimilarity "shopnig shoping" ≠ specSemanticSimilarity "shopnig shoping" :=
  ⟨by decide, by decide, by decide⟩

/-- After a dict upsert, looking up the key finds exactly the upserted
entry. -/
theorem dictSet_find {α : Type} (l : List (String × α)) (k : String) (v : α) :
    (dictSet l k v).find? (fun p => p.1 == k) = some (k, v) := by
  induction l with
  | nil => simp [dictSet]
  | cons q rest ih =>
    rw [dictSet] at ih ⊢
    by_cases hq : q.1 = k
    · rw [if_pos (by simp [hq])]
      rw [List.map_cons, if_pos hq]
      exact List.find?_cons_of_pos _ (by simp)
    · by_cases hany : (rest.any fun p => decide (p.1 = k)) = true
      · rw [if_pos (by simp [List.any_cons, hany])]
        rw [List.map_cons, if_neg hq]
        rw [List.find?_cons_of_neg _ (by simp [hq])]
        rw [if_pos hany] at ih
        exact ih
      · have hrest : (rest.any fun p => decide (p.1 = k)) = false := by
          cases h' : (rest.any fun p => decide (p.1 = k))
          · rfl
          · exact absurd h' hany
        rw [if_neg (by simp [List.any_cons, hq, hrest])]
        rw [List.cons_append]
        rw [List.find?_cons_of_neg _ (by simp [hq])]
        rw [if_neg (by simp [hrest])] at ih
        exact ih

/-- A dict upsert into a well-formed (at most one entry per key)
association list leaves exactly one entry with that key. -/
theorem dictSet_countP {α : Type} (l : List (String × α)) (k : String) (v : α)
    (h : l.countP (fun p => p.1 == k) ≤ 1) :
    (dictSet l k v).countP (fun p => p.1 == k) = 1 := by
  rw [dictSet]
  by_cases hany : (l.any (fun p => decide (p.1 = k))) = true
  · rw [if_pos hany]
    have hmap : (l.map (fun p => if p.1 = k then (k, v) else p)).countP (fun p => p.1 == k)
        = l.countP (fun p => p.1 == k) := by
      rw [List.countP_map]
      apply List.countP_congr
      intro p _
      by_cases hk : p.1 = k
      · simp [hk, Function.comp]
      · simp [hk, Function.comp]
    rw [hmap]
    have hpos : 0 < l.countP (fun p => p.1 == k) := by
      rw [List.countP_pos]
      obtain ⟨x, hx, hxk⟩ := List.any_eq_true.mp hany
      exact ⟨x, hx, by simpa using hxk⟩
    omega
  · rw [if_neg hany]
    rw [List.countP_append]
    have hzero : l.countP (fun p => p.1 == k) = 0 := by
      rw [List.countP_eq_zero]
      intro p hp
      by_cases hk : p.1 = k
      · exact absurd (List.any_eq_true.mpr ⟨p, hp, by simp [hk]⟩) hany
      · simp [hk]
    rw [hzero]
    simp [List.countP_cons]

/-- Repeated upserts with the same key collapse: last write wins. -/
theorem dictSet_overwrite {α : Type} (l : List (String × α)) (k : String) (v w : α) :
    dictSet (dictSet l k v) k w = dictSet l k w := by
  have hmem : (k, v) ∈ dictSet l k v := List.mem_of_find?_eq_some (dictSet_find l k v)
  have hany : ((dictSet l k v).any (fun p => decide (p.1 = k))) = true :=
    List.any_eq_true.mpr ⟨(k, v), hmem, by simp⟩
  conv_lhs => rw [dictSet]
  rw [if_pos hany]
  by_cases hl : (l.any (fun p => decide (p.1 = k))) = true
  · rw [dictSet, if_pos hl, List.map_map, dictSet, if_pos hl]
    apply List.map_congr_left
    intro p _
    by_cases hk : p.1 = k
    · simp [Function.comp, hk]
    · simp [Function.comp, hk]
  · rw [dictSet, if_neg hl, List.map_append, dictSet, if_neg hl]
    congr 1
    · have hid : ∀ p ∈ l, (if p.1 = k then (k, w) else p) = id p := by
        intro p hp
        by_cases hk : p.1 = k
        · exact absurd (List.any_eq_true.mpr ⟨p, hp, by simp [hk]⟩) hl
        · simp [hk]
      rw [List.map_congr_left hid, List.map_id]
    · simp


/-- C8 (amended): `cache_intent` is an idempotent upsert keyed by the hash
of the lowercased message — repeated calls leave exactly one entry for
that key — and a subsequent `should_exit_early(m)` reports a match via the
CACHED_INTENT gate PROVIDED the rule-based gate does not match `m` (the
rule-based gate has priority; see the counterexample for m = "hello"). -/
theorem c8_cache_upsert_idempotent :
    (∀ (st : CostOptimizerState) (m i : String) (c : ℚ),
      cacheIntent (cacheIntent st m i c) m i c = cacheIntent st m i c) ∧
    (∀ (st : CostOptimizerState) (m i : String) (c : ℚ),
      st.intent_cache.countP (fun p => p.1 == hashKey m) ≤ 1 →
      ((cacheIntent st m i c).intent_cache.countP (fun p => p.1 == hashKey m)) = 1) ∧
    (∀ (st : CostOptimizerState) (m i : String) (c : ℚ) (k : Int),
      checkRuleBased m = none →
      shouldExitEarly (cacheIntent st m i c) m k = (true, some (cachedGate i c))) := by
  refine ⟨?_, ?_, ?_⟩
  · intro st m i c
    simp [cacheIntent, dictSet_overwrite]
  · intro st m i c h
    simp only [cacheIntent]
    exact dictSet_countP _ _ _ h
  · intro st m i c k h1
    have hcached : checkCachedIntent (cacheIntent st m i c) m = some (cachedGate i c) := by
      unfold checkCachedIntent cacheIntent
      dsimp only
      rw [dictSet_find]
      rfl
    simp [shouldExitEarly, h1, hcached]

/-- Witness for C8 (amended) on a concrete cache interaction. -/
theorem c8_cache_upsert_idempotent_witness :
    cacheIntent (cacheIntent {} "pasta night" "dinner" 1) "pasta night" "dinner" 1
      = cacheIntent {} "pasta night" "dinner" 1 ∧
    ((cacheIntent {} "pasta night" "dinner" 1).intent_cache.countP
      (fun p => p.1 == hashKey "pasta night")) = 1 ∧
    shouldExitEarly (cacheIntent {} "pasta night" "dinner" 1) "pasta night" 7
      = (true, some (cachedGate "dinner" 1)) :=
  ⟨c8_cache_upsert_idempotent.1 {} "pasta night" "dinner" 1,
   c8_cache_upsert_idempotent.2.1 {} "pasta night" "dinner" 1 (by decide),
   c8_cache_upsert_idempotent.2.2 {} "pasta night" "dinner" 1 7 (by decide)⟩

/-- C8 counterexample: after caching "hello", `should_exit_early` still
reports the RULE_BASED gate, not CACHED_INTENT, although the cached-intent
gate would match. -/
theorem c8_hello_counterexample :
    shouldExitEarly (cacheIntent {} "hello" "greeting" 1) "hello" 7
      = (true, some helloRuleGate) ∧
    helloRuleGate.exit_gate = some ExitGate.rule_based ∧
    (checkCachedIntent (cacheIntent {} "hello" "greeting" 1) "hello").isSome = true :=
  ⟨by decide, by decide, by decide⟩

end PantryMind
